import Mathlib

/-!
Shallow embedding of `244Project.py`, an AI-assisted travel planner:
a tkinter wizard that resolves city names to IATA codes, fetches one
flight offer, asks an LLM for hotels and an itinerary, and formats the
results.  External services (OpenAI chat completion, Amadeus location
and flight search, `json.loads`, `dateutil.parser.parse`) are passed in
as function parameters; the repository's own logic is embedded directly.
-/

/-- Python whitespace characters, as used by `str.strip()`. -/
def pyIsSpace (c : Char) : Bool :=
  c = ' ' || c = '\t' || c = '\n' || c = '\r' || c = '\x0b' || c = '\x0c'

/-- Drop characters satisfying `p` from both ends of a list. -/
def trimWhile (p : Char → Bool) (l : List Char) : List Char :=
  ((l.dropWhile p).reverse.dropWhile p).reverse

/-- Python `s.strip()`: remove whitespace from both ends. -/
def pyStrip (s : String) : String := (trimWhile pyIsSpace s.toList).asString

/-- Python `s.strip(chars)` for a one-character set: remove that
character from both ends. -/
def pyStripChar (c : Char) (s : String) : String :=
  (trimWhile (fun x => x = c) s.toList).asString

/-- Python `s.upper()` (ASCII). -/
def pyUpper (s : String) : String := (s.toList.map Char.toUpper).asString

/-- Python `s.isupper()`: at least one cased character and no lowercase
cased character (ASCII). -/
def pyIsUpper (s : String) : Bool :=
  s.toList.any (fun c => c.isUpper || c.isLower) && s.toList.all (fun c => !c.isLower)

/-- Worker for `pyTitle`: the boolean records whether the previous
character was alphabetic (part of the current word). -/
def pyTitleGo : Bool → List Char → List Char
  | _, [] => []
  | prev, c :: cs =>
    (if c.isAlpha then (if prev then c.toLower else c.toUpper) else c) ::
      pyTitleGo c.isAlpha cs

/-- Python `s.title()` (ASCII): uppercase the first letter of each
maximal alphabetic run, lowercase the rest. -/
def pyTitle (s : String) : String := (pyTitleGo false s.toList).asString

/-- Python `s.replace(" ", "")`: remove every space. -/
def removeSpaces (s : String) : String :=
  (s.toList.filter (fun c => c ≠ ' ')).asString

/-- `fix_city_case` from the source: if the name minus spaces is all
uppercase, convert to `.title()`, otherwise return it unchanged. -/
def fix_city_case (city_name : String) : String :=
  let stripped := removeSpaces city_name
  if pyIsUpper stripped then pyTitle city_name else city_name

/-- One record of the `airportsdata` IATA database.  `none` models a
missing key; `some ""` models a present-but-empty (falsy) value. -/
structure AirportRecord where
  city : Option String
  name : Option String
deriving DecidableEq

/-- The resolver's memoization dictionary `iata_cache`, as an
association list: `cons` models `iata_cache[k] = v`. -/
abbrev IataCache := List (String × String)

/-- The value `record.get('city') or record.get('name', code_upper)`:
Python `or` falls through on a falsy (`None` or empty) city field, and
`get` with default returns `code_upper` when `name` is missing. -/
def airport_city_raw (record : AirportRecord) (code_upper : String) : String :=
  match record.city with
  | some c => if c = "" then record.name.getD code_upper else c
  | none => record.name.getD code_upper

/-- `iata_to_city_name` from the source, with the global `airports_db`
and `iata_cache` made explicit: looks up the cache by uppercased code,
otherwise consults the database, falls back to the code itself, applies
`fix_city_case`, and stores the result in the cache. -/
def iata_to_city_name (airports_db : String → Option AirportRecord)
    (iata_cache : IataCache) (iata_code : String) : String × IataCache :=
  let code_upper := pyUpper iata_code
  match iata_cache.lookup code_upper with
  | some v => (v, iata_cache)
  | none =>
    let city :=
      match airports_db code_upper with
      | some record => airport_city_raw record code_upper
      | none => code_upper
    let final_city := fix_city_case city
    (final_city, (code_upper, final_city) :: iata_cache)

/-- The fixed system message of `ask_openai`. -/
def openai_system_content : String :=
  "You are a helpful AI travel assistant. Flights come from Amadeus real-time data. Hotels are recommended based on user city and budget. Provide short, creative suggestions."

/-- `ask_openai` from the source.  `create` models
`openai.ChatCompletion.create` applied to the message list: `.ok`
carries `response["choices"][0]["message"]["content"]`, `.error`
carries `str(e)` for a raised exception.  The `try/except` converts any
failure into an inline error string. -/
def ask_openai (create : List (String × String) → Except String String)
    (prompt : String) : String :=
  match create [("system", openai_system_content), ("user", prompt)] with
  | .ok content => content
  | .error e => "An error occurred while calling OpenAI API: " ++ e

/-- One match returned by the Amadeus location search. -/
structure AmadeusLocation where
  iataCode : String
deriving DecidableEq

/-- `get_iata_code` from the source.  `locations_get` models
`amadeus.reference_data.locations.get` on the keyword: `.error` is a
raised `ResponseError` (caught, printed, `None` returned), `.ok` its
`data` list.  `if not data: return None`; otherwise the first match's
`iataCode`. -/
def get_iata_code (locations_get : String → Except String (List AmadeusLocation))
    (city_query : String) : Option String :=
  match locations_get city_query with
  | .error _ => none
  | .ok [] => none
  | .ok (l :: _) => some l.iataCode

/-- One endpoint of a flight segment: IATA code and ISO-8601
timestamp (the `departure` / `arrival` dictionaries). -/
structure SegPoint where
  iataCode : String
  at_ : String
deriving DecidableEq

/-- One flight segment. -/
structure Segment where
  departure : SegPoint
  arrival : SegPoint
deriving DecidableEq

/-- One itinerary: a list of segments. -/
structure Itinerary where
  segments : List Segment
deriving DecidableEq

/-- One flight offer: total price string and itineraries. -/
structure FlightOffer where
  price_total : String
  itineraries : List Itinerary
deriving DecidableEq

/-- The parameters of one flight-offers search request, as built by
`get_flights`. -/
structure FlightQuery where
  originLocationCode : String
  destinationLocationCode : String
  departureDate : String
  returnDate : String
  adults : Nat
  currencyCode : String
  max : Nat
deriving DecidableEq

/-- The request `get_flights` sends: capped to one result, in USD. -/
def flight_query (origin_iata destination_iata departure_date return_date : String)
    (adults : Nat) : FlightQuery :=
  { originLocationCode := origin_iata
    destinationLocationCode := destination_iata
    departureDate := departure_date
    returnDate := return_date
    adults := adults
    currencyCode := "USD"
    max := 1 }

/-- `get_flights` from the source.  `search_get` models
`amadeus.shopping.flight_offers_search.get`: `.error` is a raised
`ResponseError` (caught, printed, `[]` returned), `.ok` its `data`. -/
def get_flights (search_get : FlightQuery → Except String (List FlightOffer))
    (origin_iata destination_iata departure_date return_date : String)
    (adults : Nat) : List FlightOffer :=
  match search_get (flight_query origin_iata destination_iata departure_date
      return_date adults) with
  | .ok data => data
  | .error _ => []

/-- A parsed timestamp, the relevant fields of the `datetime` object
returned by `dateutil.parser.parse`. -/
structure PyDateTime where
  year : Nat
  month : Nat
  day : Nat
  hour : Nat
  minute : Nat
deriving DecidableEq

/-- English month names for `strftime("%B")`. -/
def monthName : Nat → String
  | 1 => "January"
  | 2 => "February"
  | 3 => "March"
  | 4 => "April"
  | 5 => "May"
  | 6 => "June"
  | 7 => "July"
  | 8 => "August"
  | 9 => "September"
  | 10 => "October"
  | 11 => "November"
  | 12 => "December"
  | _ => ""

/-- Zero-pad a number to two digits (`%d`, `%I`, `%M`). -/
def pad2 (n : Nat) : String :=
  if n < 10 then "0" ++ toString n else toString n

/-- `dt.strftime("%B %d, %Y")`: e.g. "July 01, 2024". -/
def strftime_B_d_Y (dt : PyDateTime) : String :=
  monthName dt.month ++ " " ++ pad2 dt.day ++ ", " ++ toString dt.year

/-- `dt.strftime("%I:%M %p")`: 12-hour clock, e.g. "08:15 AM". -/
def strftime_I_M_p (dt : PyDateTime) : String :=
  let h12 := if dt.hour % 12 = 0 then 12 else dt.hour % 12
  pad2 h12 ++ ":" ++ pad2 dt.minute ++ " " ++ (if dt.hour < 12 then "AM" else "PM")

/-- The body of the segment loop of `parse_single_flight_offer`: the
accumulated `summary_lines`, the `segment_counter` and the resolver
cache, updated by one segment.  `parse_dt` models
`dateutil.parser.parse` on the service's timestamps. -/
def process_segment (parse_dt : String → PyDateTime)
    (airports_db : String → Option AirportRecord)
    (state : List String × Nat × IataCache) (seg : Segment) :
    List String × Nat × IataCache :=
  let (summary_lines, segment_counter, cache) := state
  let dep_code := seg.departure.iataCode
  let dep_dt := parse_dt seg.departure.at_
  let arr_code := seg.arrival.iataCode
  let arr_dt := parse_dt seg.arrival.at_
  let dep_date := strftime_B_d_Y dep_dt
  let dep_time := strftime_I_M_p dep_dt
  let arr_date := strftime_B_d_Y arr_dt
  let arr_time := strftime_I_M_p arr_dt
  let dep_res := iata_to_city_name airports_db cache dep_code
  let arr_res := iata_to_city_name airports_db dep_res.2 arr_code
  (summary_lines ++
    ["Segment " ++ toString segment_counter ++ ":",
     "  From: " ++ dep_res.1 ++ " (" ++ dep_code ++ ")",
     "  Date: " ++ dep_date,
     "  Time: " ++ dep_time ++ "\n",
     "  To: " ++ arr_res.1 ++ " (" ++ arr_code ++ ")",
     "  Date: " ++ arr_date,
     "  Time: " ++ arr_time ++ "\n"],
   segment_counter + 1, arr_res.2)

/-- `parse_single_flight_offer` from the source, with the resolver
cache threaded explicitly (the Python original mutates the global
`iata_cache` through `iata_to_city_name`). -/
def parse_single_flight_offer (parse_dt : String → PyDateTime)
    (airports_db : String → Option AirportRecord) (cache : IataCache)
    (flight_offers : List FlightOffer) : String × IataCache :=
  match flight_offers with
  | [] => ("No flight offers found for these dates.", cache)
  | offer :: _ =>
    let total_price := offer.price_total
    let init : List String × Nat × IataCache :=
      (["Flight detail", "Total Price (per adult): $" ++ total_price ++ "\n"],
       1, cache)
    let res :=
      offer.itineraries.foldl
        (fun st itinerary => itinerary.segments.foldl
          (process_segment parse_dt airports_db) st) init
    (String.intercalate "\n" res.1, res.2.2)

/-- Specification rendering of one numbered segment block: the lines of
the block for segment number `n`, together with the updated resolver
cache. -/
def segment_block_spec (parse_dt : String → PyDateTime)
    (airports_db : String → Option AirportRecord) (cache : IataCache)
    (n : Nat) (seg : Segment) : List String × IataCache :=
  let dep_res := iata_to_city_name airports_db cache seg.departure.iataCode
  let arr_res := iata_to_city_name airports_db dep_res.2 seg.arrival.iataCode
  (["Segment " ++ toString n ++ ":",
    "  From: " ++ dep_res.1 ++ " (" ++ seg.departure.iataCode ++ ")",
    "  Date: " ++ strftime_B_d_Y (parse_dt seg.departure.at_),
    "  Time: " ++ strftime_I_M_p (parse_dt seg.departure.at_) ++ "\n",
    "  To: " ++ arr_res.1 ++ " (" ++ seg.arrival.iataCode ++ ")",
    "  Date: " ++ strftime_B_d_Y (parse_dt seg.arrival.at_),
    "  Time: " ++ strftime_I_M_p (parse_dt seg.arrival.at_) ++ "\n"],
   arr_res.2)

/-- Specification rendering of a flat segment list, numbering the
segments `n`, `n+1`, ... contiguously. -/
def format_segments_spec (parse_dt : String → PyDateTime)
    (airports_db : String → Option AirportRecord) :
    IataCache → Nat → List Segment → List String × IataCache
  | cache, _, [] => ([], cache)
  | cache, n, seg :: segs =>
    let b := segment_block_spec parse_dt airports_db cache n seg
    let r := format_segments_spec parse_dt airports_db b.2 (n + 1) segs
    (b.1 ++ r.1, r.2)

/-- Specification form of `formatOffer`, following the spec's words:
the empty offer list yields exactly the no-offers message; otherwise
the header with the total price is followed by one block per segment,
taken across ALL itineraries flattened in order, numbered contiguously
starting at 1 (never reset per itinerary), with dates as
"Month DD, YYYY", 12-hour clock times, and codes resolved to city
names through the resolver. -/
def formatOffer_spec (parse_dt : String → PyDateTime)
    (airports_db : String → Option AirportRecord) (cache : IataCache)
    (flight_offers : List FlightOffer) : String × IataCache :=
  match flight_offers with
  | [] => ("No flight offers found for these dates.", cache)
  | offer :: _ =>
    let all_segments := (offer.itineraries.map Itinerary.segments).flatten
    let res := format_segments_spec parse_dt airports_db cache 1 all_segments
    (String.intercalate "\n"
      (["Flight detail", "Total Price (per adult): $" ++ offer.price_total ++ "\n"]
        ++ res.1), res.2)

/-- A JSON value, the result of Python `json.loads`. -/
inductive Json where
  | null : Json
  | bool : Bool → Json
  | num : ℚ → Json
  | str : String → Json
  | arr : List Json → Json
  | obj : List (String × Json) → Json

/-- The backtick character stripped from code fences. -/
def backquoteChar : Char := Char.ofNat 96

/-- Python `"{:.2f}".format(x)` for a nonnegative value, on the exact
rational the float denotes: the value in cents, rounding halves up
(Python rounds halves to even, which only differs on exact half-cent
values that no budget in the claims takes). -/
def format2f (q : ℚ) : String :=
  let cents : Nat := ((q.num * 200 + (q.den : Int)) / (2 * (q.den : Int))).toNat
  toString (cents / 100) ++ "." ++ pad2 (cents % 100)

/-- The hotel-request prompt built by `get_gpt_hotels`. -/
def gpt_hotels_prompt (destination : String) (budget_per_night : ℚ) : String :=
  "Recommend exactly 5 real hotels in " ++ destination ++
  " that typically have an average nightly rate at or under $" ++
  format2f budget_per_night ++ " USD. " ++
  "Only provide valid JSON—no code fences or extra text. The response must look like:\n" ++
  "[\n" ++
  "  \x7b\n" ++
  "    \"name\": \"Hotel Name\",\n" ++
  "    \"price\": \"Approx. 120\",\n" ++
  "    \"address\": \"123 Street, City\"\n" ++
  "  \x7d,\n" ++
  "  ... (5 total) ...\n" ++
  "]"

/-- The code-fence stripping done by `get_gpt_hotels`:
`response.strip().strip("```").strip()`. -/
def gpt_fence_strip (response : String) : String :=
  pyStrip (pyStripChar backquoteChar (pyStrip response))

/-- `get_gpt_hotels` from the source.  `json_loads` models Python
`json.loads` (`none` = parse exception, caught and logged).  The parsed
value is kept only when it is a JSON list of exactly 5 entries;
anything else — including malformed JSON — yields `[]`. -/
def get_gpt_hotels (create : List (String × String) → Except String String)
    (json_loads : String → Option Json)
    (destination : String) (budget_per_night : ℚ) : List Json :=
  let user_prompt := gpt_hotels_prompt destination budget_per_night
  let response := ask_openai create user_prompt
  let response_stripped := gpt_fence_strip response
  match json_loads response_stripped with
  | some (Json.arr hotel_list) =>
    if hotel_list.length = 5 then hotel_list else []
  | some _ => []
  | none => []

/-- `generate_hotel_description` from the source: one LLM call per
hotel. -/
def generate_hotel_description (create : List (String × String) → Except String String)
    (hotel_name city address approx_price : String) : String :=
  ask_openai create
    ("Write a short, engaging description for a hotel named '" ++ hotel_name ++
     "' located in " ++ city ++ ". The approximate nightly rate is " ++
     approx_price ++ ". Its address is: " ++ address ++
     ". Highlight proximity to popular landmarks or city centers, and the general vibe.")

/-- One GPT-provided hotel object, with possibly missing fields
(`h.get(key, default)` in the source). -/
structure HotelJson where
  name : Option String
  price : Option String
  address : Option String
deriving DecidableEq

/-- The formatted block that `parse_gpt_hotels` emits for hotel `h` at
1-based position `i`: missing fields fall back to "Unknown Hotel" /
"N/A" / "N/A", the city passed to the description call is the literal
guess "the destination". -/
def hotel_block (create : List (String × String) → Except String String)
    (i : Nat) (h : HotelJson) : String :=
  let name := h.name.getD "Unknown Hotel"
  let price := h.price.getD "N/A"
  let address := h.address.getD "N/A"
  let city_guess := "the destination"
  let description := generate_hotel_description create name city_guess address price
  "Hotel Option #" ++ toString i ++ "\n" ++
  "Name: " ++ name ++ "\n" ++
  "Approx. Price/Night: " ++ price ++ "\n" ++
  "Address: " ++ address ++ "\n" ++
  "Description: " ++ description ++ "\n"

/-- The loop of `parse_gpt_hotels` (`enumerate(hotels, start=1)`),
carrying the 1-based index. -/
def parse_gpt_hotels_go (create : List (String × String) → Except String String) :
    Nat → List HotelJson → List String
  | _, [] => []
  | i, h :: rest => hotel_block create i h :: parse_gpt_hotels_go create (i + 1) rest

/-- `parse_gpt_hotels` from the source: one summary block per
GPT-provided hotel, enumerated from 1. -/
def parse_gpt_hotels (create : List (String × String) → Except String String)
    (hotels : List HotelJson) : List String :=
  parse_gpt_hotels_go create 1 hotels

/-- Gregorian leap-year test, as in Python's `calendar`/`datetime`. -/
def isLeap (y : Nat) : Bool := y % 4 = 0 && (y % 100 ≠ 0 || y % 400 = 0)

/-- Days in each month, by leap flag. -/
def daysInMonthTable (leap : Bool) : Nat → Nat
  | 1 => 31
  | 2 => if leap then 29 else 28
  | 3 => 31
  | 4 => 30
  | 5 => 31
  | 6 => 30
  | 7 => 31
  | 8 => 31
  | 9 => 30
  | 10 => 31
  | 11 => 30
  | 12 => 31
  | _ => 0

/-- Days in month `m` of year `y`. -/
def daysInMonth (y m : Nat) : Nat := daysInMonthTable (isLeap y) m

/-- Cumulative days before month `m` in a non-leap year. -/
def cumDaysTable : Nat → Nat
  | 1 => 0
  | 2 => 31
  | 3 => 59
  | 4 => 90
  | 5 => 120
  | 6 => 151
  | 7 => 181
  | 8 => 212
  | 9 => 243
  | 10 => 273
  | 11 => 304
  | 12 => 334
  | 13 => 365
  | _ => 0

/-- Days before month `m` in year `y`. -/
def daysBeforeMonth (y m : Nat) : Nat :=
  cumDaysTable m + (if isLeap y ∧ 3 ≤ m then 1 else 0)

/-- Leap years in `1..p`. -/
def leapsBefore (p : Nat) : Nat := p / 4 - p / 100 + p / 400

/-- Days of the proleptic Gregorian calendar strictly before year `y`. -/
def daysBeforeYear (y : Nat) : Nat := 365 * (y - 1) + leapsBefore (y - 1)

/-- A calendar date, the relevant fields of the `datetime` at midnight
that `dateutil.parser.parse` returns for a plain `YYYY-MM-DD` string. -/
structure PyDate where
  year : Nat
  month : Nat
  day : Nat
deriving DecidableEq

/-- `date.toordinal()`: day number in the proleptic Gregorian calendar,
with 0001-01-01 as day 1.  Python's `(end_dt - start_dt).days` for two
midnight datetimes equals the difference of their ordinals. -/
def toOrdinal (d : PyDate) : Nat :=
  daysBeforeYear d.year + daysBeforeMonth d.year d.month + d.day

/-- A well-formed calendar date. -/
def PyDate.valid (d : PyDate) : Prop :=
  1 ≤ d.year ∧ 1 ≤ d.month ∧ d.month ≤ 12 ∧ 1 ≤ d.day ∧
    d.day ≤ daysInMonth d.year d.month

instance (d : PyDate) : Decidable (PyDate.valid d) :=
  inferInstanceAs (Decidable (1 ≤ d.year ∧ 1 ≤ d.month ∧ d.month ≤ 12 ∧ 1 ≤ d.day ∧
    d.day ≤ daysInMonth d.year d.month))

/-- Calendar order: `a` is strictly before `b`. -/
def dateLt (a b : PyDate) : Prop :=
  a.year < b.year ∨
    (a.year = b.year ∧
      (a.month < b.month ∨ (a.month = b.month ∧ a.day < b.day)))

/-- The trip length computed by `get_activities`:
`(end_dt - start_dt).days + 1`. -/
def get_activities_total_days (start_dt end_dt : PyDate) : Int :=
  ((toOrdinal end_dt : Int) - (toOrdinal start_dt : Int)) + 1

/-- The validation gate of `get_activities`: `total_days < 1` shows the
error modal ("Your end date must be after your start date.") and
returns without advancing to the itinerary request. -/
def get_activities_rejects (start_dt end_dt : PyDate) : Bool :=
  decide (get_activities_total_days start_dt end_dt < 1)

/-- Value of a nonempty all-digit string. -/
def digitsVal (l : List Char) : Option Nat :=
  if l ≠ [] ∧ l.all Char.isDigit then
    some (l.foldl (fun acc c => 10 * acc + (c.toNat - 48)) 0)
  else none

/-- Split a character list at every occurrence of `c` (like
`str.split`). -/
def splitOnChar (c : Char) : List Char → List (List Char)
  | [] => [[]]
  | x :: xs =>
    if x = c then [] :: splitOnChar c xs
    else
      match splitOnChar c xs with
      | [] => [[x]]
      | y :: ys => (x :: y) :: ys

/-- `dateutil.parser.parse` restricted to strict `YYYY-MM-DD` input
(the format the wizard requests): the date at midnight, or `none` for a
malformed string (a raised parse error, caught by `get_activities`). -/
def parse_iso_date (s : String) : Option PyDate :=
  match splitOnChar '-' s.toList with
  | [ys, ms, ds] =>
    match digitsVal ys, digitsVal ms, digitsVal ds with
    | some y, some m, some d =>
      if 1 ≤ m ∧ m ≤ 12 ∧ 1 ≤ d ∧ d ≤ daysInMonth y m then
        some ⟨y, m, d⟩
      else none
    | _, _, _ => none
  | _ => none

/-- The budget handling of `handle_travel_info`: strip the field; empty
means the sentinel default `999999.0`; otherwise `float(...)`, whose
`ValueError` (modelled by `py_float` returning `none`) triggers the
"Hotel budget must be a number." modal. -/
def parse_budget (py_float : String → Option ℚ) (budget_field : String) : Option ℚ :=
  let budget_str := pyStrip budget_field
  if budget_str = "" then some 999999 else py_float budget_str

/-- Substring test used to state facts about generated prompts. -/
def strContainsSub (hay needle : String) : Bool :=
  hay.toList.tails.any (fun t => needle.toList.isPrefixOf t)

/-! ## Theorems -/

/-- C4: for every city name whose space-stripped form is entirely
upper-case (Python `isupper`), `fix_city_case` returns the title-cased
form; for any other casing it returns the input unchanged. -/
theorem fix_city_case_case_rule (s : String) :
    (pyIsUpper (removeSpaces s) = true → fix_city_case s = pyTitle s) ∧
    (pyIsUpper (removeSpaces s) = false → fix_city_case s = s) := by
  unfold fix_city_case
  cases h : pyIsUpper (removeSpaces s) <;> simp [h]

/-- Witness for C4: "SAN DIEGO" is title-cased to "San Diego",
"mccarran" is left unchanged. -/
theorem fix_city_case_case_rule_witness :
    pyIsUpper (removeSpaces "SAN DIEGO") = true ∧
    fix_city_case "SAN DIEGO" = pyTitle "SAN DIEGO" ∧
    pyTitle "SAN DIEGO" = "San Diego" ∧
    pyIsUpper (removeSpaces "mccarran") = false ∧
    fix_city_case "mccarran" = "mccarran" :=
  ⟨by decide, (fix_city_case_case_rule "SAN DIEGO").1 (by decide), by decide,
   by decide, (fix_city_case_case_rule "mccarran").2 (by decide)⟩

/-- C2: `ask_openai` never propagates a failure: a failed
chat-completion call produces the inline error string, a successful one
its content. -/
theorem ask_openai_never_raises
    (create : List (String × String) → Except String String) (prompt : String) :
    (∀ e, create [("system", openai_system_content), ("user", prompt)] = .error e →
      ask_openai create prompt = "An error occurred while calling OpenAI API: " ++ e) ∧
    (∀ content, create [("system", openai_system_content), ("user", prompt)] = .ok content →
      ask_openai create prompt = content) := by
  constructor <;> intro x hx <;> simp [ask_openai, hx]

/-- Witness for C2 at a service that always fails. -/
theorem ask_openai_never_raises_witness :
    (fun _ : List (String × String) => (Except.error "boom" : Except String String))
        [("system", openai_system_content), ("user", "hi")] = Except.error "boom" ∧
    ask_openai (fun _ => Except.error "boom") "hi" =
      "An error occurred while calling OpenAI API: " ++ "boom" :=
  ⟨rfl, (ask_openai_never_raises (fun _ => Except.error "boom") "hi").1 "boom" rfl⟩

/-- C8: a failed or empty location search yields `None` from
`get_iata_code`, and a failed flight search yields `[]` from
`get_flights`; neither failure escapes as a raised fault (both
functions are total). -/
theorem external_service_failure_absence
    (locations_get : String → Except String (List AmadeusLocation))
    (search_get : FlightQuery → Except String (List FlightOffer))
    (city_query origin destination dep ret : String) (adults : Nat) :
    (∀ e, locations_get city_query = .error e →
      get_iata_code locations_get city_query = none) ∧
    (locations_get city_query = .ok [] →
      get_iata_code locations_get city_query = none) ∧
    (∀ e, search_get (flight_query origin destination dep ret adults) = .error e →
      get_flights search_get origin destination dep ret adults = []) := by
  refine ⟨fun e he => ?_, fun he => ?_, fun e he => ?_⟩ <;>
    simp [get_iata_code, get_flights, he]

/-- Witness for C8 at services that always fail. -/
theorem external_service_failure_absence_witness :
    get_iata_code (fun _ => Except.error "503") "Chicago" = none ∧
    get_flights (fun _ => Except.error "503") "ORD" "SAN" "2024-07-01" "2024-07-05" 1 = [] :=
  ⟨(external_service_failure_absence (fun _ => Except.error "503")
      (fun _ => Except.error "503") "Chicago" "ORD" "SAN" "2024-07-01" "2024-07-05" 1).1
      "503" rfl,
   (external_service_failure_absence (fun _ => Except.error "503")
      (fun _ => Except.error "503") "Chicago" "ORD" "SAN" "2024-07-01" "2024-07-05" 1).2.2
      "503" rfl⟩

/-- C3 counterexample: the resolver does NOT return the raw dataset
field or the raw code — `fix_city_case` is applied first.  For the
absent code "san" it returns "San", not the code itself (in either
casing), and for a record whose city field is "SAN DIEGO" it returns
the title-cased "San Diego", not the field's value. -/
theorem iata_to_city_name_claim_counterexample :
    (iata_to_city_name (fun _ => none) [] "san").1 = "San" ∧
    (iata_to_city_name (fun _ => none) [] "san").1 ≠ "san" ∧
    (iata_to_city_name (fun _ => none) [] "san").1 ≠ "SAN" ∧
    (iata_to_city_name
        (fun _ => some ⟨some "SAN DIEGO", some "San Diego International"⟩)
        [] "SAN").1 = "San Diego" ∧
    "San Diego" ≠ "SAN DIEGO" := by
  refine ⟨by decide, by decide, by decide, by decide, by decide⟩

/-- C3 amended: on a cache miss, `iata_to_city_name` returns
`fix_city_case` applied to the record's nonempty `city` field if
present, else its `name` field (defaulting to the uppercased code),
and `fix_city_case` of the uppercased code when the code is absent
from the dataset. -/
theorem iata_to_city_name_fallback
    (airports_db : String → Option AirportRecord) (cache : IataCache) (code : String)
    (hmiss : cache.lookup (pyUpper code) = none) :
    (∀ record c, airports_db (pyUpper code) = some record → record.city = some c →
      c ≠ "" → (iata_to_city_name airports_db cache code).1 = fix_city_case c) ∧
    (∀ record, airports_db (pyUpper code) = some record →
      (record.city = none ∨ record.city = some "") →
      (iata_to_city_name airports_db cache code).1 =
        fix_city_case (record.name.getD (pyUpper code))) ∧
    (airports_db (pyUpper code) = none →
      (iata_to_city_name airports_db cache code).1 = fix_city_case (pyUpper code)) := by
  simp only [iata_to_city_name, hmiss]
  refine ⟨fun record c hdb hc hne => ?_, fun record hdb hc => ?_, fun hdb => ?_⟩
  · simp [hdb, airport_city_raw, hc, hne]
  · rcases hc with hc | hc <;> simp [hdb, airport_city_raw, hc]
  · simp [hdb]

/-- Witness for C3 amended, at an absent code on an empty cache. -/
theorem iata_to_city_name_fallback_witness :
    List.lookup (pyUpper "san") ([] : IataCache) = none ∧
    (iata_to_city_name (fun _ => none) [] "san").1 = fix_city_case (pyUpper "san") :=
  ⟨rfl, (iata_to_city_name_fallback (fun _ => none) [] "san" rfl).2.2 rfl⟩

/-- C5: the resolver is idempotent and memoized — a second call with
the same code (up to letter case) returns the identical value, leaves
the cache unchanged, and does not consult the dataset (the second
call's dataset is arbitrary); the cache is keyed by the uppercased
code. -/
theorem iata_to_city_name_memoized
    (db db' : String → Option AirportRecord) (cache : IataCache)
    (code code' : String) (h : pyUpper code = pyUpper code') :
    (iata_to_city_name db' (iata_to_city_name db cache code).2 code').1 =
      (iata_to_city_name db cache code).1 ∧
    (iata_to_city_name db' (iata_to_city_name db cache code).2 code').2 =
      (iata_to_city_name db cache code).2 ∧
    ((iata_to_city_name db cache code).2).lookup (pyUpper code) =
      some (iata_to_city_name db cache code).1 := by
  unfold iata_to_city_name
  rw [← h]
  cases hc : List.lookup (pyUpper code) cache <;>
    simp [List.lookup, hc]

/-- Witness for C5: "san" then "SAN" against different datasets. -/
theorem iata_to_city_name_memoized_witness :
    pyUpper "san" = pyUpper "SAN" ∧
    ((iata_to_city_name (fun _ => none)
        (iata_to_city_name (fun _ => some ⟨some "San Diego", none⟩) [] "san").2 "SAN").1 =
      (iata_to_city_name (fun _ => some ⟨some "San Diego", none⟩) [] "san").1 ∧
    (iata_to_city_name (fun _ => none)
        (iata_to_city_name (fun _ => some ⟨some "San Diego", none⟩) [] "san").2 "SAN").2 =
      (iata_to_city_name (fun _ => some ⟨some "San Diego", none⟩) [] "san").2 ∧
    ((iata_to_city_name (fun _ => some ⟨some "San Diego", none⟩) [] "san").2).lookup
        (pyUpper "san") =
      some (iata_to_city_name (fun _ => some ⟨some "San Diego", none⟩) [] "san").1) :=
  ⟨by decide,
   iata_to_city_name_memoized (fun _ => some ⟨some "San Diego", none⟩)
     (fun _ => none) [] "san" "SAN" (by decide)⟩

/-- C9 counterexample: an unset budget does not become "unbounded" —
it becomes the finite sentinel `999999.0`, and that finite cap appears
verbatim in the hotel advisory prompt, so the prompt does depend on
the (finite) cap. -/
theorem budget_default_counterexample :
    parse_budget (fun _ => none) "" = some 999999 ∧
    strContainsSub (gpt_hotels_prompt "San Diego" 999999)
      "nightly rate at or under $999999.00 USD" = true ∧
    gpt_hotels_prompt "San Diego" 999999 ≠ gpt_hotels_prompt "San Diego" 1000000 := by
  refine ⟨rfl, by decide, by decide⟩

/-- C9 amended: an unset (empty after stripping) budget field defaults
to the finite sentinel `999999.0` — effectively unbounded in practice,
but a concrete finite cap passed into the hotel advisory request — and
a nonempty field is parsed with `float`. -/
theorem parse_budget_default (py_float : String → Option ℚ) :
    parse_budget py_float "" = some 999999 ∧
    parse_budget py_float "   " = some 999999 ∧
    (∀ s, pyStrip s ≠ "" → parse_budget py_float s = py_float (pyStrip s)) := by
  refine ⟨rfl, rfl, fun s hs => ?_⟩
  simp [parse_budget, hs]

/-- Witness for C9 amended at a concrete float parser. -/
theorem parse_budget_default_witness :
    parse_budget (fun _ => some 150) "" = some 999999 ∧
    pyStrip " 150 " ≠ "" ∧
    parse_budget (fun _ => some 150) " 150 " = some 150 :=
  ⟨(parse_budget_default (fun _ => some 150)).1, by decide,
   (parse_budget_default (fun _ => some 150)).2.2 " 150 " (by decide)⟩

/-- Length of the `parse_gpt_hotels` loop output. -/
theorem parse_gpt_hotels_go_length
    (create : List (String × String) → Except String String)
    (n : Nat) (hotels : List HotelJson) :
    (parse_gpt_hotels_go create n hotels).length = hotels.length := by
  induction hotels generalizing n with
  | nil => rfl
  | cons hd tl ih => simp [parse_gpt_hotels_go, ih]

/-- Entries of the `parse_gpt_hotels` loop output. -/
theorem parse_gpt_hotels_go_getD
    (create : List (String × String) → Except String String)
    (n i : Nat) (hotels : List HotelJson) (h : i < hotels.length) :
    (parse_gpt_hotels_go create n hotels).getD i "" =
      hotel_block create (n + i) (hotels.getD i ⟨none, none, none⟩) := by
  induction hotels generalizing n i with
  | nil => simp at h
  | cons hd tl ih =>
    cases i with
    | zero => simp [parse_gpt_hotels_go]
    | succ j =>
      have hj : j < tl.length := by simpa using h
      have := ih (n + 1) j hj
      simpa [parse_gpt_hotels_go, Nat.add_assoc, Nat.add_comm 1 j] using this

/-- C10: `summarize` (`parse_gpt_hotels`) is total and emits exactly
one block per candidate, in input order and 1-indexed; a candidate
with a missing `name`, `price` or `address` field gets the defaults
"Unknown Hotel" / "N/A" / "N/A" (see `hotel_block`) instead of
failing. -/
theorem parse_gpt_hotels_total_indexed
    (create : List (String × String) → Except String String)
    (hotels : List HotelJson) :
    (parse_gpt_hotels create hotels).length = hotels.length ∧
    (∀ i, i < hotels.length →
      (parse_gpt_hotels create hotels).getD i "" =
        hotel_block create (i + 1) (hotels.getD i ⟨none, none, none⟩)) := by
  refine ⟨parse_gpt_hotels_go_length create 1 hotels, fun i hi => ?_⟩
  have := parse_gpt_hotels_go_getD create 1 i hotels hi
  simpa [parse_gpt_hotels, Nat.add_comm 1 i] using this

/-- Witness for C10: a candidate with all fields missing yields the
default block, a complete candidate its own block, at positions 1
and 2. -/
theorem parse_gpt_hotels_total_indexed_witness :
    (parse_gpt_hotels (fun _ => Except.ok "desc")
        [⟨none, none, none⟩, ⟨some "Ritz", some "300", some "1 Place"⟩]).length = 2 ∧
    (parse_gpt_hotels (fun _ => Except.ok "desc")
        [⟨none, none, none⟩, ⟨some "Ritz", some "300", some "1 Place"⟩]).getD 0 "" =
      hotel_block (fun _ => Except.ok "desc") 1 ⟨none, none, none⟩ ∧
    (parse_gpt_hotels (fun _ => Except.ok "desc")
        [⟨none, none, none⟩, ⟨some "Ritz", some "300", some "1 Place"⟩]).getD 1 "" =
      hotel_block (fun _ => Except.ok "desc") 2 ⟨some "Ritz", some "300", some "1 Place"⟩ ∧
    hotel_block (fun _ => Except.ok "desc") 1 ⟨none, none, none⟩ =
      "Hotel Option #1\nName: Unknown Hotel\nApprox. Price/Night: N/A\nAddress: N/A\nDescription: desc\n" :=
  ⟨(parse_gpt_hotels_total_indexed (fun _ => Except.ok "desc")
      [⟨none, none, none⟩, ⟨some "Ritz", some "300", some "1 Place"⟩]).1,
   (parse_gpt_hotels_total_indexed (fun _ => Except.ok "desc")
      [⟨none, none, none⟩, ⟨some "Ritz", some "300", some "1 Place"⟩]).2 0 (by decide),
   (parse_gpt_hotels_total_indexed (fun _ => Except.ok "desc")
      [⟨none, none, none⟩, ⟨some "Ritz", some "300", some "1 Place"⟩]).2 1 (by decide),
   rfl⟩

/-- C1: `get_gpt_hotels` returns the parsed list exactly when the LLM
response, after whitespace/code-fence stripping, parses as a JSON
array of exactly five entries; a JSON array of any other length, a
JSON non-array value, or unparsable text all yield `[]`.  The function
is total (never raises) and never returns a partial result. -/
theorem get_gpt_hotels_five_or_empty
    (create : List (String × String) → Except String String)
    (json_loads : String → Option Json) (destination : String) (budget : ℚ) :
    (∀ l, json_loads (gpt_fence_strip
        (ask_openai create (gpt_hotels_prompt destination budget))) = some (Json.arr l) →
      l.length = 5 → get_gpt_hotels create json_loads destination budget = l) ∧
    (∀ l, json_loads (gpt_fence_strip
        (ask_openai create (gpt_hotels_prompt destination budget))) = some (Json.arr l) →
      l.length ≠ 5 → get_gpt_hotels create json_loads destination budget = []) ∧
    (∀ j, json_loads (gpt_fence_strip
        (ask_openai create (gpt_hotels_prompt destination budget))) = some j →
      (∀ l, j ≠ Json.arr l) → get_gpt_hotels create json_loads destination budget = []) ∧
    (json_loads (gpt_fence_strip
        (ask_openai create (gpt_hotels_prompt destination budget))) = none →
      get_gpt_hotels create json_loads destination budget = []) := by
  refine ⟨fun l hl h5 => ?_, fun l hl h5 => ?_, fun j hj hna => ?_, fun hn => ?_⟩
  · simp [get_gpt_hotels, hl, h5]
  · simp [get_gpt_hotels, hl, h5]
  · cases j with
    | arr l => exact absurd rfl (hna l)
    | null => simp [get_gpt_hotels, hj]
    | bool b => simp [get_gpt_hotels, hj]
    | num q => simp [get_gpt_hotels, hj]
    | str s => simp [get_gpt_hotels, hj]
    | obj o => simp [get_gpt_hotels, hj]
  · simp [get_gpt_hotels, hn]

/-- Witness for C1: a fenced five-entry array is accepted whole, and a
parser that fails yields `[]`. -/
theorem get_gpt_hotels_five_or_empty_witness :
    get_gpt_hotels (fun _ => Except.ok "```[1, 2, 3, 4, 5]```")
      (fun s => if s = "[1, 2, 3, 4, 5]" then
        some (Json.arr [Json.num 1, Json.num 2, Json.num 3, Json.num 4, Json.num 5])
      else none) "Paris" 150 =
      [Json.num 1, Json.num 2, Json.num 3, Json.num 4, Json.num 5] ∧
    get_gpt_hotels (fun _ => Except.ok "not json") (fun _ => none) "Paris" 150 = [] :=
  ⟨(get_gpt_hotels_five_or_empty (fun _ => Except.ok "```[1, 2, 3, 4, 5]```")
      (fun s => if s = "[1, 2, 3, 4, 5]" then
        some (Json.arr [Json.num 1, Json.num 2, Json.num 3, Json.num 4, Json.num 5])
      else none) "Paris" 150).1
      [Json.num 1, Json.num 2, Json.num 3, Json.num 4, Json.num 5] rfl rfl,
   (get_gpt_hotels_five_or_empty (fun _ => Except.ok "not json")
      (fun _ => none) "Paris" 150).2.2.2 rfl⟩

/-- One step of the source's segment loop appends exactly the
specification's block for the current counter value and bumps the
counter by one. -/
theorem process_segment_eq (parse_dt : String → PyDateTime)
    (airports_db : String → Option AirportRecord)
    (lines : List String) (n : Nat) (cache : IataCache) (seg : Segment) :
    process_segment parse_dt airports_db (lines, n, cache) seg =
      (lines ++ (segment_block_spec parse_dt airports_db cache n seg).1, n + 1,
       (segment_block_spec parse_dt airports_db cache n seg).2) := by
  rfl

/-- The source's inner fold over one itinerary's segments produces the
specification blocks numbered from the incoming counter. -/
theorem segments_foldl_eq (parse_dt : String → PyDateTime)
    (airports_db : String → Option AirportRecord) (segs : List Segment) :
    ∀ (lines : List String) (n : Nat) (cache : IataCache),
      segs.foldl (process_segment parse_dt airports_db) (lines, n, cache) =
        (lines ++ (format_segments_spec parse_dt airports_db cache n segs).1,
         n + segs.length,
         (format_segments_spec parse_dt airports_db cache n segs).2) := by
  induction segs with
  | nil => intro lines n cache; simp [format_segments_spec]
  | cons s ss ih =>
    intro lines n cache
    rw [List.foldl_cons, process_segment_eq, ih]
    simp [format_segments_spec, List.append_assoc]
    omega

/-- Splitting a flat segment list splits the specification rendering,
with the numbering continuing across the split. -/
theorem format_segments_spec_append (parse_dt : String → PyDateTime)
    (airports_db : String → Option AirportRecord) (l1 l2 : List Segment) :
    ∀ (cache : IataCache) (n : Nat),
      format_segments_spec parse_dt airports_db cache n (l1 ++ l2) =
        ((format_segments_spec parse_dt airports_db cache n l1).1 ++
           (format_segments_spec parse_dt airports_db
             (format_segments_spec parse_dt airports_db cache n l1).2
             (n + l1.length) l2).1,
         (format_segments_spec parse_dt airports_db
           (format_segments_spec parse_dt airports_db cache n l1).2
           (n + l1.length) l2).2) := by
  induction l1 with
  | nil => intro cache n; simp [format_segments_spec]
  | cons s ss ih =>
    intro cache n
    have hn : n + (ss.length + 1) = n + 1 + ss.length := by omega
    simp [format_segments_spec, ih, List.append_assoc, hn]

/-- The source's nested fold over itineraries equals the specification
rendering of the flattened segment list, counting on across itinerary
boundaries. -/
theorem itineraries_foldl_eq (parse_dt : String → PyDateTime)
    (airports_db : String → Option AirportRecord) (its : List Itinerary) :
    ∀ (lines : List String) (n : Nat) (cache : IataCache),
      its.foldl (fun st it => it.segments.foldl
          (process_segment parse_dt airports_db) st) (lines, n, cache) =
        (lines ++ (format_segments_spec parse_dt airports_db cache n
            ((its.map Itinerary.segments).flatten)).1,
         n + ((its.map Itinerary.segments).flatten).length,
         (format_segments_spec parse_dt airports_db cache n
            ((its.map Itinerary.segments).flatten)).2) := by
  induction its with
  | nil => intro lines n cache; simp [format_segments_spec]
  | cons it its ih =>
    intro lines n cache
    rw [List.foldl_cons, segments_foldl_eq, ih]
    have hflat : (((it :: its).map Itinerary.segments).flatten) =
        it.segments ++ ((its.map Itinerary.segments).flatten) := by simp
    rw [hflat, format_segments_spec_append]
    simp [List.append_assoc]
    omega

/-- C6: `parse_single_flight_offer` coincides with the specification
`formatOffer_spec`: the empty offer list yields exactly
"No flight offers found for these dates."; otherwise the total price
header is followed by one block per segment across all itineraries in
order, numbered contiguously from 1 (not reset per itinerary), with
"Month DD, YYYY" dates, 12-hour clock times, and departure/arrival
codes resolved to city names through `iata_to_city_name`. -/
theorem parse_single_flight_offer_correct (parse_dt : String → PyDateTime)
    (airports_db : String → Option AirportRecord) (cache : IataCache)
    (flight_offers : List FlightOffer) :
    parse_single_flight_offer parse_dt airports_db cache flight_offers =
      formatOffer_spec parse_dt airports_db cache flight_offers := by
  cases flight_offers with
  | nil => rfl
  | cons offer rest =>
    simp only [parse_single_flight_offer, formatOffer_spec]
    rw [itineraries_foldl_eq]

/-- `isLeap` unfolded to arithmetic. -/
theorem isLeap_iff (y : Nat) :
    isLeap y = true ↔ (y % 4 = 0 ∧ (y % 100 ≠ 0 ∨ y % 400 = 0)) := by
  simp [isLeap]

set_option maxHeartbeats 1000000 in
/-- One more year adds one leap day exactly when the new year is
leap. -/
theorem leapsBefore_succ (p : Nat) :
    leapsBefore (p + 1) = leapsBefore p + (if isLeap (p + 1) then 1 else 0) := by
  unfold leapsBefore
  cases h : isLeap (p + 1) <;> simp only [h, if_true, if_false, Bool.false_eq_true]
  · have h2 : ¬((p + 1) % 4 = 0 ∧ ((p + 1) % 100 ≠ 0 ∨ (p + 1) % 400 = 0)) := by
      rw [← isLeap_iff, h]; simp
    omega
  · have h2 : (p + 1) % 4 = 0 ∧ ((p + 1) % 100 ≠ 0 ∨ (p + 1) % 400 = 0) :=
      (isLeap_iff _).mp h
    omega

set_option maxHeartbeats 1000000 in
/-- A year has 365 days, 366 when leap. -/
theorem daysBeforeYear_succ (y : Nat) (hy : 1 ≤ y) :
    daysBeforeYear (y + 1) = daysBeforeYear y + 365 + (if isLeap y then 1 else 0) := by
  obtain ⟨p, rfl⟩ : ∃ p, y = p + 1 := ⟨y - 1, by omega⟩
  unfold daysBeforeYear
  simp only [Nat.add_sub_cancel]
  have hs := leapsBefore_succ p
  cases hL : isLeap (p + 1) <;>
    simp only [hL, if_true, if_false, Bool.false_eq_true] at hs ⊢ <;> omega

set_option maxHeartbeats 1000000 in
/-- A strictly earlier year leaves room for a whole year of days. -/
theorem daysBeforeYear_mono (y1 y2 : Nat) (h1 : 1 ≤ y1) (hlt : y1 < y2) :
    daysBeforeYear y1 + 365 + (if isLeap y1 then 1 else 0) ≤ daysBeforeYear y2 := by
  have hlt' : y1 + 1 ≤ y2 := hlt
  induction y2, hlt' using Nat.le_induction with
  | base => exact le_of_eq (daysBeforeYear_succ y1 h1).symm
  | succ y2 hy2 ih =>
    have step := daysBeforeYear_succ y2 (by omega)
    split_ifs at step ih ⊢ <;> omega

/-- Cumulative month days are strictly increasing month over month
(with month 13 standing for the full year). -/
theorem dbm_step_le (b : Bool) :
    ∀ m2, m2 < 14 → ∀ m1, m1 < m2 → 1 ≤ m1 →
      cumDaysTable m1 + (if b = true ∧ 3 ≤ m1 then 1 else 0) + daysInMonthTable b m1 ≤
        cumDaysTable m2 + (if b = true ∧ 3 ≤ m2 then 1 else 0) := by
  cases b <;> decide

/-- The day-of-year of a valid date lies in `[1, 365 + leap]`. -/
theorem doy_bounds (d : PyDate) (h : d.valid) :
    1 ≤ daysBeforeMonth d.year d.month + d.day ∧
    daysBeforeMonth d.year d.month + d.day ≤ 365 + (if isLeap d.year then 1 else 0) := by
  obtain ⟨hy, hm1, hm2, hd1, hd2⟩ := h
  constructor
  · omega
  · have h13 := dbm_step_le (isLeap d.year) 13 (by omega) d.month (by omega) hm1
    unfold daysInMonth at hd2
    unfold daysBeforeMonth
    have hc13 : cumDaysTable 13 = 365 := rfl
    rw [hc13] at h13
    split_ifs at h13 ⊢ <;> simp_all <;> omega

/-- Strict calendar order implies strict ordinal order for valid
dates. -/
theorem toOrdinal_lt_of_dateLt (d1 d2 : PyDate) (h1 : d1.valid) (h2 : d2.valid)
    (h : dateLt d1 d2) : toOrdinal d1 < toOrdinal d2 := by
  have hub := (doy_bounds d1 h1).2
  have hlb := (doy_bounds d2 h2).1
  obtain ⟨hy1, hm11, hm12, hd11, hd12⟩ := h1
  obtain ⟨hy2, hm21, hm22, hd21, hd22⟩ := h2
  rcases h with hY | ⟨hYe, hM | ⟨hMe, hD⟩⟩
  · have hmono := daysBeforeYear_mono d1.year d2.year hy1 hY
    unfold toOrdinal
    split_ifs at hub hmono <;> omega
  · unfold toOrdinal
    rw [hYe]
    unfold daysInMonth at hd12
    rw [hYe] at hd12
    have hstep := dbm_step_le (isLeap d2.year) d2.month (by omega) d1.month hM hm11
    unfold daysBeforeMonth
    split_ifs at hstep ⊢ <;> simp_all <;> omega
  · unfold toOrdinal
    rw [hYe, hMe]
    omega

/-- Calendar order is a trichotomy. -/
theorem dateLt_trichotomy (a b : PyDate) : dateLt a b ∨ a = b ∨ dateLt b a := by
  obtain ⟨y1, m1, d1⟩ := a
  obtain ⟨y2, m2, d2⟩ := b
  simp only [dateLt, PyDate.mk.injEq]
  omega

/-- Ordinal comparison coincides with calendar order on valid dates. -/
theorem toOrdinal_lt_iff (d1 d2 : PyDate) (h1 : d1.valid) (h2 : d2.valid) :
    toOrdinal d1 < toOrdinal d2 ↔ dateLt d1 d2 := by
  constructor
  · intro hlt
    rcases dateLt_trichotomy d1 d2 with h | h | h
    · exact h
    · subst h; exact absurd hlt (lt_irrefl _)
    · exact absurd (toOrdinal_lt_of_dateLt d2 d1 h2 h1 h) (by omega)
  · exact toOrdinal_lt_of_dateLt d1 d2 h1 h2

/-- C7: the itinerary stage computes the trip length inclusively
(`(end − start).days + 1`): a same-day trip has length 1 and passes
the gate, and for valid parsed dates the stage rejects (shows the
validation modal without advancing) exactly when the end date is
before the start date. -/
theorem get_activities_trip_length_rule :
    (∀ d : PyDate, get_activities_total_days d d = 1 ∧
      get_activities_rejects d d = false) ∧
    (∀ s e : PyDate, s.valid → e.valid →
      (get_activities_rejects s e = true ↔ dateLt e s)) := by
  constructor
  · intro d
    unfold get_activities_rejects get_activities_total_days
    refine ⟨by omega, ?_⟩
    simp only [decide_eq_false_iff_not]
    omega
  · intro s e hs he
    unfold get_activities_rejects get_activities_total_days
    rw [decide_eq_true_eq]
    have hiff := toOrdinal_lt_iff e s he hs
    constructor
    · intro h
      exact hiff.mp (by omega)
    · intro h
      have := hiff.mpr h
      omega

/-- Witness for C7: the spec's dates — 2024-06-01 to itself gives
length 1 and passes; 2024-06-01 to 2024-06-03 gives 3; the gate for
end 2024-05-31 before start 2024-06-01 fires exactly per the calendar
order. -/
theorem get_activities_trip_length_rule_witness :
    parse_iso_date "2024-06-01" = some ⟨2024, 6, 1⟩ ∧
    parse_iso_date "2024-06-03" = some ⟨2024, 6, 3⟩ ∧
    get_activities_total_days ⟨2024, 6, 1⟩ ⟨2024, 6, 1⟩ = 1 ∧
    get_activities_rejects ⟨2024, 6, 1⟩ ⟨2024, 6, 1⟩ = false ∧
    get_activities_total_days ⟨2024, 6, 1⟩ ⟨2024, 6, 3⟩ = 3 ∧
    PyDate.valid ⟨2024, 6, 1⟩ ∧ PyDate.valid ⟨2024, 5, 31⟩ ∧
    (get_activities_rejects ⟨2024, 6, 1⟩ ⟨2024, 5, 31⟩ = true ↔
      dateLt ⟨2024, 5, 31⟩ ⟨2024, 6, 1⟩) :=
  ⟨by decide, by decide,
   (get_activities_trip_length_rule.1 ⟨2024, 6, 1⟩).1,
   (get_activities_trip_length_rule.1 ⟨2024, 6, 1⟩).2,
   by decide, by decide, by decide,
   get_activities_trip_length_rule.2 ⟨2024, 6, 1⟩ ⟨2024, 5, 31⟩
     (by decide) (by decide)⟩
